import Mathlib

/-!
Verification of the hackathon-chatbot repository (src/main.py, src/database.py).

The relevance extractor `extract_relevant_sections`, the temporal helpers
`get_hackathon_status` and `is_registration_currently_open`, and the store
update `update_hackathon` are shallowly embedded below.  Python dictionaries
with optional keys become structures with `Option` fields; Python lists become
`List`; datetime instants become `Int` (an abstract epoch timestamp), with the
ISO-8601 parser `datetime.fromisoformat` abstracted as a function parameter
`parse : String → Option Int` (`none` models a raised `ValueError`); a Python
function that can raise an uncaught exception returns `Option`/`none`.
-/

set_option maxHeartbeats 1000000

/-- Python semantics of `str.lower()` (ASCII range, which covers every keyword
the extractor compares against). -/
def pyLower (s : String) : String := String.mk (s.data.map Char.toLower)

/-- Python semantics of `str.upper()` (ASCII range). -/
def pyUpper (s : String) : String := String.mk (s.data.map Char.toUpper)

/-- Python semantics of `str.capitalize()`: first character upper-cased, the
rest lower-cased. -/
def pyCapitalize (s : String) : String :=
  match s.data with
  | [] => ""
  | c :: cs => String.mk (Char.toUpper c :: cs.map Char.toLower)

/-- Rendering of a possibly-absent string in a Python f-string: `str(None)`
is the literal text `None`. -/
def pyStr (v : Option String) : String :=
  match v with
  | none => "None"
  | some s => s

/-- Truthiness of an optional string value, as Python's `if x:` sees it:
false when the key is absent and when the value is the empty string. -/
def truthyS (v : Option String) : Bool :=
  match v with
  | none => false
  | some s => !s.isEmpty

/-- Matching of a candidate list head: true when `w` is an initial run of
`s`, comparing characters pointwise. -/
def leadMatch : List Char → List Char → Bool
  | [], _ => true
  | _ :: _, [] => false
  | a :: as, b :: bs => a == b && leadMatch as bs

/-- Contiguous-occurrence test on character lists: true when `w` occurs
somewhere inside `s`.  This is Python's substring operator `w in s`. -/
def occursIn : List Char → List Char → Bool
  | w, [] => leadMatch w []
  | w, c :: t => leadMatch w (c :: t) || occursIn w t

/-- Python `any(word in question_lower for word in keywords)`: some keyword of
the list occurs in the (already lower-cased) question. -/
def containsAny (ql : String) (keywords : List String) : Bool :=
  keywords.any (fun w => occursIn w.data ql.data)

/-- Python `"\n".join(sections)`. -/
def joinLines (l : List String) : String :=
  match l with
  | [] => ""
  | x :: xs => xs.foldl (fun acc y => acc ++ "\n" ++ y) x

/-- Python `s.replace('Z', '+00:00')` for the one-character pattern `Z`:
every occurrence of `Z` is expanded to `+00:00` (src/main.py lines 103-104,
115-116). -/
def normalizeZ (s : String) : String :=
  String.mk (s.data.flatMap (fun c => if c = 'Z' then "+00:00".data else [c]))

/-- Reading a datetime field exactly as src/main.py does:
`datetime.fromisoformat(record.get(key, '').replace('Z', '+00:00'))`, with the
parser abstract and an absent key defaulting to the empty string. -/
def parseField (parse : String → Option Int) (v : Option String) : Option Int :=
  parse (normalizeZ (v.getD ""))

/-- Hackathon status helper, from src/main.py lines 112-125
(`get_hackathon_status`): parse both bounds, then `upcoming` when
`now < start`, `ended` when `now > end`, otherwise `ongoing`; any parse
failure (including an absent field, read as `''`) is caught and yields
`unknown`. -/
def get_hackathon_status (parse : String → Option Int) (now : Int)
    (start_datetime end_datetime : Option String) : String :=
  match parseField parse start_datetime, parseField parse end_datetime with
  | some s, some e =>
    if now < s then "upcoming"
    else if now > e then "ended"
    else "ongoing"
  | _, _ => "unknown"

/-- Registration-form question entry (src/main.py lines 142-146): keys
`label`, `type`, `required` read with `.get`; `required` is used only for
truthiness. -/
structure RegQuestion where
  label : Option String
  type : Option String
  required : Bool

/-- Submission-form question entry of a phase (src/main.py lines 202-206). -/
structure SubmissionQuestion where
  label : Option String
  type : Option String
  required : Bool

/-- One evaluation metric group (src/main.py lines 227-233): a `metrics`
mapping from criterion name to a point value, in insertion order. -/
structure MetricGroup where
  metrics : List (String × Int)

/-- Phase entry of a hackathon record (src/main.py lines 98-106, 194-233). -/
structure Phase where
  name : Option String
  type : Option String
  start_datetime : Option String
  end_datetime : Option String
  description : Option String
  evaluator : Option String
  submission_questions : List SubmissionQuestion
  is_elimination_round : Bool
  evaluation_metrics : List MetricGroup

/-- Problem statement nested under a theme (src/main.py lines 180-182):
`ps['name']` is a direct indexing that raises `KeyError` when absent, while
`description` is read with `.get(..., '')`. -/
structure ProblemStatement where
  name : Option String
  description : Option String

/-- Theme entry (src/main.py lines 172-182): `theme['name']` is a direct
indexing that raises `KeyError` when absent. -/
structure Theme where
  name : Option String
  description : Option String
  problem_statements : List ProblemStatement

/-- Event entry (src/main.py lines 266-270). -/
structure Event where
  title : Option String
  datetime : Option String
  description : Option String

/-- Entry of the polymorphic roster collections (mentors, judges, partners,
faq, contact_details): either a structured mapping (read with `.get`), a bare
display string, or any other value, which the code silently skips
(src/main.py lines 296-307, 319-329, 340-345, 356-361, 467-478). -/
inductive PolyEntry where
  | dict (fields : List (String × String))
  | str (text : String)
  | other

/-- Lookup in the field list of a `PolyEntry.dict`, the embedding of
Python `entry.get(key)`. -/
def dget (d : List (String × String)) (k : String) : Option String :=
  (d.find? (fun p => p.1 == k)).map (fun p => p.2)

/-- Eligibility mapping (src/main.py lines 380-395). -/
structure Eligibility where
  profile_type : Option String
  details : Option String
  gender : Option String

/-- Hackathon record: the open, partially-typed document of the store,
restricted to the fields `extract_relevant_sections` reads.  `Option` / empty
list model an absent key. -/
structure Hackathon where
  name : Option String
  tagline : Option String
  about : Option String
  organizer_name : Option String
  mode : Option String
  location : Option String
  resources : Option String
  rules : Option String
  announcements : Option String
  industry : Option String
  type : Option String
  start_datetime : Option String
  end_datetime : Option String
  is_registration_open : Option Bool
  is_winners_announced : Bool
  min_team_size : Option Int
  max_team_size : Option Int
  total_participants : Option Int
  total_views : Option Int
  phases : List Phase
  registration_questions : List RegQuestion
  themes : List Theme
  prizes : List String
  events : List Event
  links : List (String × Option String)
  tags : List String
  mentors : List PolyEntry
  judges : List PolyEntry
  partners : List PolyEntry
  faq : List PolyEntry
  contact_details : List PolyEntry
  eligibility : Option Eligibility

/-- Hackathon record with every optional key absent and every collection
empty. -/
def emptyHackathon : Hackathon :=
  ⟨none, none, none, none, none, none, none, none, none, none, none, none,
   none, none, false, none, none, none, none, [], [], [], [], [], [], [],
   [], [], [], [], [], none⟩

/-- First phase whose `type` is `registration`, as selected by
`next((p for p in hackathon_data.get('phases', []) if p.get('type') ==
'registration'), None)` (src/main.py lines 98, 131). -/
def find_registration_phase (h : Hackathon) : Option Phase :=
  h.phases.find? (fun p => p.type == some "registration")

/-- Registration openness helper, from src/main.py lines 96-109
(`is_registration_currently_open`): with no registration-type phase, the
stored `is_registration_open` flag (absent read as `False`); otherwise both
phase bounds are parsed and the result is `start <= now <= end`; any parse
failure falls back to the stored flag. -/
def is_registration_currently_open (parse : String → Option Int) (now : Int)
    (h : Hackathon) : Bool :=
  match find_registration_phase h with
  | none => h.is_registration_open.getD false
  | some reg_phase =>
    match parseField parse reg_phase.start_datetime,
          parseField parse reg_phase.end_datetime with
    | some s, some e => decide (s ≤ now ∧ now ≤ e)
    | _, _ => h.is_registration_open.getD false

/-- Bullet glyph used by the extractor's list lines (src/main.py, e.g. line
233); the source file stores it as the three characters U+201A U+00C4 U+00A2. -/
def bullet : String := "‚Ä¢"

/-- Marker prefixed to the open-registration status line (src/main.py line
138): characters U+201A U+00FA U+00D6. -/
def openMark : String := "‚úÖ"

/-- Marker prefixed to the closed-registration status line (src/main.py line
138): characters U+201A U+00F9 U+00E5. -/
def closedMark : String := "‚ùå"

/-- Marker of the elimination-round line (src/main.py line 210). -/
def elimMark : String := "‚ö†Ô∏è"

/-- Emoji shown next to the computed status in the overview block
(src/main.py line 483), with the dictionary's `.get(status, '')` default. -/
def status_emoji (status : String) : String :=
  if status = "upcoming" then "üîú"
  else if status = "ongoing" then "üöÄ"
  else if status = "ended" then "‚úÖ"
  else if status = "unknown" then "‚ùì"
  else ""

/-- Keyword list of the registration category (src/main.py line 128). -/
def registration_keywords : List String :=
  ["register", "registration", "sign up", "join", "participate", "enroll", "apply"]

/-- Keyword list of the team category (src/main.py line 149). -/
def team_keywords : List String :=
  ["team", "size", "member", "solo", "group", "individual", "alone", "partner", "collaborate"]

/-- Keyword list of the themes category (src/main.py line 165). -/
def theme_keywords : List String :=
  ["theme", "track", "problem", "challenge", "topic", "category", "domain", "statement"]

/-- Keyword list of the timeline category (src/main.py line 185). -/
def timeline_keywords : List String :=
  ["phase", "timeline", "deadline", "when", "date", "schedule", "duration", "time", "start", "end", "submission"]

/-- Keyword list of the evaluation category (src/main.py line 215). -/
def eval_keywords : List String :=
  ["judg", "evaluat", "criteria", "score", "point", "metric", "assess", "grade", "marking"]

/-- Keyword list of the resources category (src/main.py line 236). -/
def resource_keywords : List String :=
  ["resource", "template", "material", "help", "guide", "document", "link", "tool"]

/-- Keyword list of the prizes category (src/main.py line 248). -/
def prize_keywords : List String :=
  ["prize", "reward", "win", "award", "bounty", "incentive"]

/-- Keyword list of the events category (src/main.py line 260). -/
def event_keywords : List String :=
  ["event", "workshop", "session", "webinar", "meeting", "ceremony"]

/-- Keyword list of the contact category (src/main.py line 275). -/
def contact_keywords : List String :=
  ["contact", "reach", "support", "link", "social", "discord", "slack", "email"]

/-- Keyword list of the mentors category (src/main.py line 289). -/
def mentor_keywords : List String :=
  ["mentor", "mentors", "mentorship", "guide", "advisor", "expert"]

/-- Keyword list of the judges category (src/main.py line 312). -/
def judge_keywords : List String :=
  ["judge", "judges", "judging", "jury", "evaluator"]

/-- Keyword list of the partners category (src/main.py line 334). -/
def partner_keywords : List String :=
  ["partner", "partners", "sponsor", "sponsors", "supporter", "collaboration"]

/-- Keyword list of the faq category (src/main.py line 350). -/
def faq_keywords : List String :=
  ["faq", "frequently", "question", "questions", "common", "ask"]

/-- Keyword list of the rules category (src/main.py line 366). -/
def rules_keywords : List String :=
  ["rule", "rules", "regulation", "regulations", "guideline", "guidelines", "policy"]

/-- Keyword list of the eligibility category (src/main.py line 377). -/
def eligibility_keywords : List String :=
  ["eligib", "can i join", "can i participate", "who can", "requirement", "qualify"]

/-- Keyword list of the location category (src/main.py line 398). -/
def location_keywords : List String :=
  ["location", "venue", "where", "address", "place"]

/-- Keyword list of the announcements category (src/main.py line 413). -/
def announcement_keywords : List String :=
  ["announcement", "announcements", "update", "updates", "news", "latest"]

/-- Keyword list of the statistics category (src/main.py line 424). -/
def stats_keywords : List String :=
  ["how many", "participants", "registered", "views", "popular"]

/-- Keyword list of the tags category (src/main.py line 434). -/
def tag_keywords : List String :=
  ["tag", "tags", "category", "categories", "industry", "type"]

/-- Keyword list of the winners category (src/main.py line 450). -/
def winner_keywords : List String :=
  ["winner", "winners", "result", "results", "who won"]

/-- Keyword list of the contact-details category, written inline in the
source (src/main.py line 462). -/
def contact_detail_keywords : List String :=
  ["email", "phone", "call", "contact number"]

/-- General/overview trigger words (src/main.py line 481). -/
def general_keywords : List String :=
  ["about", "overview", "general", "info", "tell me", "what is", "status", "when"]

/-- Category tags appended to `matched_categories`, in source order; each
depends only on the lower-cased question (src/main.py lines 130, 151, 167,
187, 217, 238, 250, 262, 277, 291, 314, 336, 352, 368, 379, 400, 415, 426,
436, 452, 463). -/
def matchedCategories (ql : String) : List String :=
  (if containsAny ql registration_keywords then ["registration"] else []) ++
  (if containsAny ql team_keywords then ["team"] else []) ++
  (if containsAny ql theme_keywords then ["themes"] else []) ++
  (if containsAny ql timeline_keywords then ["timeline"] else []) ++
  (if containsAny ql eval_keywords then ["evaluation"] else []) ++
  (if containsAny ql resource_keywords then ["resources"] else []) ++
  (if containsAny ql prize_keywords then ["prizes"] else []) ++
  (if containsAny ql event_keywords then ["events"] else []) ++
  (if containsAny ql contact_keywords then ["contact"] else []) ++
  (if containsAny ql mentor_keywords then ["mentors"] else []) ++
  (if containsAny ql judge_keywords then ["judges"] else []) ++
  (if containsAny ql partner_keywords then ["partners"] else []) ++
  (if containsAny ql faq_keywords then ["faq"] else []) ++
  (if containsAny ql rules_keywords then ["rules"] else []) ++
  (if containsAny ql eligibility_keywords then ["eligibility"] else []) ++
  (if containsAny ql location_keywords then ["location"] else []) ++
  (if containsAny ql announcement_keywords then ["announcements"] else []) ++
  (if containsAny ql stats_keywords then ["stats"] else []) ++
  (if containsAny ql tag_keywords then ["tags"] else []) ++
  (if containsAny ql winner_keywords then ["winners"] else []) ++
  (if containsAny ql contact_detail_keywords then ["contact_details"] else [])

/-- Registration block (src/main.py lines 127-146): rendered only when a
registration keyword matches AND a registration-type phase exists; otherwise
nothing is appended at all. -/
def registration_block (parse : String → Option Int) (nowReg : Int)
    (h : Hackathon) (ql : String) : List String :=
  if containsAny ql registration_keywords then
    match find_registration_phase h with
    | none => []
    | some reg_phase =>
      ["=== REGISTRATION INFORMATION ===",
       "Registration Period: " ++ pyStr reg_phase.start_datetime ++ " to " ++
         pyStr reg_phase.end_datetime,
       "Current Status: " ++
         (if is_registration_currently_open parse nowReg h then
            openMark ++ " OPEN - You can register now!"
          else closedMark ++ " CLOSED - Registration has ended"),
       "Description: " ++ reg_phase.description.getD "Registration period for the hackathon"]
      ++
      (if h.registration_questions.isEmpty then []
       else "\nRegistration Questions Required:" ::
         h.registration_questions.map (fun q =>
           "  - " ++ pyStr q.label ++ " (" ++ pyStr q.type ++ ") - " ++
             (if q.required then "Required" else "Optional")))
  else []

/-- Rendering of an optional integer read with default `'Not specified'`
(src/main.py lines 153-154). -/
def pyIntStr (v : Option Int) : String :=
  match v with
  | none => "Not specified"
  | some n => toString n

/-- Team block (src/main.py lines 148-162). -/
def team_block (h : Hackathon) (ql : String) : List String :=
  if containsAny ql team_keywords then
    ["\n=== TEAM SIZE INFORMATION ===",
     "Minimum team size: " ++ pyIntStr h.min_team_size,
     "Maximum team size: " ++ pyIntStr h.max_team_size]
    ++
    (if h.min_team_size == some 1 && h.max_team_size == some 1 then
       ["This is a SOLO hackathon - only individual participation is allowed."]
     else if h.min_team_size == some 1 then
       ["Solo participation is allowed. Teams can have up to " ++
          pyIntStr h.max_team_size ++ " members."]
     else [])
  else []

/-- Lines of one problem statement (src/main.py lines 180-182); `none` models
the `KeyError` raised by `ps['name']` when the key is absent. -/
def problem_statement_lines (ps : ProblemStatement) : Option (List String) :=
  ps.name.map (fun n =>
    ["     " ++ bullet ++ " " ++ n,
     "       " ++ ps.description.getD ""])

/-- Lines of one theme (src/main.py lines 172-182); `none` models the
`KeyError` raised by `theme['name']` or by a nested `ps['name']`. -/
def theme_lines (idx : Nat) (t : Theme) : Option (List String) :=
  t.name.bind (fun n =>
    (t.problem_statements.mapM problem_statement_lines).map (fun psl =>
      ["\n" ++ toString idx ++ ". " ++ n,
       "   Description: " ++ t.description.getD "No description available"]
      ++
      (if t.problem_statements.isEmpty then []
       else ("   Problem Statements (" ++ toString t.problem_statements.length ++ "):")
              :: psl.flatten)))

/-- Themes block (src/main.py lines 164-182); the only block whose rendering
can raise, hence the `Option`. -/
def themes_block (h : Hackathon) (ql : String) : Option (List String) :=
  if containsAny ql theme_keywords then
    ((h.themes.enumFrom 1).mapM (fun p => theme_lines p.1 p.2)).map (fun tls =>
      ["\n=== THEMES AND PROBLEM STATEMENTS ===",
       "Total number of themes: " ++ toString h.themes.length]
      ++ tls.flatten)
  else some []

/-- Timeline block (src/main.py lines 184-212). -/
def timeline_block (h : Hackathon) (ql : String) : List String :=
  if containsAny ql timeline_keywords then
    ["\n=== HACKATHON TIMELINE AND PHASES ===",
     "Overall Duration: " ++ pyStr h.start_datetime ++ " to " ++ pyStr h.end_datetime,
     "\nTotal Phases: " ++ toString h.phases.length]
    ++
    (h.phases.enumFrom 1).flatMap (fun p =>
      ["\n" ++ toString p.1 ++ ". " ++ pyStr p.2.name,
       "   Period: " ++ pyStr p.2.start_datetime ++ " to " ++ pyStr p.2.end_datetime,
       "   Type: " ++ pyStr p.2.type]
      ++ (if truthyS p.2.description then
            ["   Description: " ++ pyStr p.2.description] else [])
      ++ (if p.2.submission_questions.isEmpty then []
          else "   Submission Requirements:" ::
            p.2.submission_questions.map (fun sq =>
              "     - " ++ pyStr sq.label ++ " (Type: " ++ pyStr sq.type ++ ") - " ++
                (if sq.required then "Required" else "Optional")))
      ++ (if p.2.is_elimination_round then
            ["   " ++ elimMark ++ " This is an ELIMINATION ROUND"] else [])
      ++ ["   Evaluator: " ++ p.2.evaluator.getD "Not specified"])
  else []

/-- Point total of a metric group: `sum(metric_group['metrics'].values())`
(src/main.py line 229). -/
def total_points (g : MetricGroup) : Int :=
  (g.metrics.map (fun cp => cp.2)).sum

/-- Percentage of one criterion (src/main.py line 232):
`(points / total_points * 100) if total_points > 0 else 0`, over exact
rationals. -/
def percentage (points total : Int) : ℚ :=
  if total > 0 then (points : ℚ) / (total : ℚ) * 100 else 0

/-- Floor of a rational, computed on its normalized numerator and
denominator. -/
def ratFloor (q : ℚ) : ℤ := q.num.fdiv q.den

/-- Rounding used by the f-string format `{percentage:.0f}` (round half to
even, Python's float formatting). -/
def roundHalfEven (q : ℚ) : ℤ :=
  if q - (ratFloor q : ℚ) < 1 / 2 then ratFloor q
  else if (1 : ℚ) / 2 < q - (ratFloor q : ℚ) then ratFloor q + 1
  else if ratFloor q % 2 = 0 then ratFloor q else ratFloor q + 1

/-- Rendered percentage figure of `{percentage:.0f}` (src/main.py line 233). -/
def pct_rendered (points total : Int) : Int :=
  roundHalfEven (percentage points total)

/-- Lines of one evaluation metric group (src/main.py lines 227-233): skipped
entirely when `metrics` is absent or empty. -/
def metric_group_lines (g : MetricGroup) : List String :=
  if g.metrics.isEmpty then []
  else
    ("\nTotal Points: " ++ toString (total_points g)) ::
    g.metrics.map (fun cp =>
      "  " ++ bullet ++ " " ++ cp.1 ++ ": " ++ toString cp.2 ++ " points (" ++
        toString (pct_rendered cp.2 (total_points g)) ++ "%)")

/-- Evaluation block (src/main.py lines 214-233): the header is appended
unconditionally on keyword match; phases without metric groups contribute
nothing. -/
def eval_block (h : Hackathon) (ql : String) : List String :=
  if containsAny ql eval_keywords then
    "\n=== EVALUATION CRITERIA ===" ::
    h.phases.flatMap (fun phase =>
      if phase.evaluation_metrics.isEmpty then []
      else
        ["\n" ++ pyStr phase.name ++ " Phase:",
         "Evaluator: " ++ phase.evaluator.getD "Not specified",
         "Elimination Round: " ++ (if phase.is_elimination_round then "Yes" else "No"),
         "\nScoring Breakdown:"]
        ++ phase.evaluation_metrics.flatMap metric_group_lines)
  else []

/-- Resources block (src/main.py lines 235-245). -/
def resources_block (h : Hackathon) (ql : String) : List String :=
  if containsAny ql resource_keywords then
    if truthyS h.resources then
      ["\n=== AVAILABLE RESOURCES ===", h.resources.getD ""]
    else
      ["\n=== AVAILABLE RESOURCES ===", "No specific resources have been provided yet."]
  else []

/-- Prizes block (src/main.py lines 247-257). -/
def prizes_block (h : Hackathon) (ql : String) : List String :=
  if containsAny ql prize_keywords then
    "\n=== PRIZES ===" ::
    (if h.prizes.isEmpty then ["Prize information has not been announced yet."]
     else h.prizes.map (fun p => "  " ++ bullet ++ " " ++ p))
  else []

/-- Events block (src/main.py lines 259-272). -/
def events_block (h : Hackathon) (ql : String) : List String :=
  if containsAny ql event_keywords then
    "\n=== SCHEDULED EVENTS ===" ::
    (if h.events.isEmpty then ["No specific events have been scheduled yet."]
     else h.events.flatMap (fun e =>
       ["\n" ++ bullet ++ " " ++ pyStr e.title,
        "  Date/Time: " ++ pyStr e.datetime]
       ++ (if truthyS e.description then
             ["  Description: " ++ e.description.getD ""] else [])))
  else []

/-- Contact and links block (src/main.py lines 274-286): only entries with a
truthy URL are rendered; when none is, a fallback line replaces them. -/
def contact_block (h : Hackathon) (ql : String) : List String :=
  if containsAny ql contact_keywords then
    "\n=== CONTACT & LINKS ===" ::
    (let rendered := h.links.flatMap (fun pu =>
       if truthyS pu.2 then
         ["  " ++ bullet ++ " " ++ pyCapitalize pu.1 ++ ": " ++ pu.2.getD ""]
       else []);
     if rendered.isEmpty then ["Contact information will be provided soon."]
     else rendered)
  else []

/-- Lines of one mentor entry (src/main.py lines 296-307). -/
def mentor_lines : PolyEntry → List String
  | PolyEntry.dict d =>
    let name := (dget d "name").getD "Unknown"
    let expertise := (dget d "expertise").getD ((dget d "role").getD "Mentor")
    let bio := (dget d "bio").getD ((dget d "description").getD "")
    ["\n" ++ bullet ++ " **" ++ name ++ "**",
     "  Expertise: " ++ expertise]
    ++ (if bio.isEmpty then [] else ["  Bio: " ++ bio])
  | PolyEntry.str s => [bullet ++ " " ++ s]
  | PolyEntry.other => []

/-- Mentors block (src/main.py lines 288-309): empty mentor list renders the
header plus a none-yet message. -/
def mentors_block (h : Hackathon) (ql : String) : List String :=
  if containsAny ql mentor_keywords then
    "\n=== MENTORS ===" ::
    (if h.mentors.isEmpty then ["No mentors have been assigned yet."]
     else ("Total mentors: " ++ toString h.mentors.length) ::
       h.mentors.flatMap mentor_lines)
  else []

/-- Lines of one judge entry (src/main.py lines 319-329). -/
def judge_lines : PolyEntry → List String
  | PolyEntry.dict d =>
    let name := (dget d "name").getD "Unknown"
    let title := (dget d "title").getD ((dget d "role").getD "Judge")
    let company := (dget d "company").getD ((dget d "organization").getD "")
    ["\n" ++ bullet ++ " **" ++ name ++ "**",
     "  Title: " ++ title]
    ++ (if company.isEmpty then [] else ["  Company: " ++ company])
  | PolyEntry.str s => [bullet ++ " " ++ s]
  | PolyEntry.other => []

/-- Judges block (src/main.py lines 311-331). -/
def judges_block (h : Hackathon) (ql : String) : List String :=
  if containsAny ql judge_keywords then
    "\n=== JUDGES ===" ::
    (if h.judges.isEmpty then ["Judges will be announced soon."]
     else ("Total judges: " ++ toString h.judges.length) ::
       h.judges.flatMap judge_lines)
  else []

/-- Lines of one partner entry (src/main.py lines 340-345). -/
def partner_lines : PolyEntry → List String
  | PolyEntry.dict d => [bullet ++ " " ++ (dget d "name").getD "Unknown"]
  | PolyEntry.str s => [bullet ++ " " ++ s]
  | PolyEntry.other => []

/-- Partners block (src/main.py lines 333-347). -/
def partners_block (h : Hackathon) (ql : String) : List String :=
  if containsAny ql partner_keywords then
    "\n=== PARTNERS & SPONSORS ===" ::
    (if h.partners.isEmpty then
       ["Partner and sponsor information will be announced soon."]
     else h.partners.flatMap partner_lines)
  else []

/-- Lines of one faq entry (src/main.py lines 356-361): only structured
entries are rendered, but every entry consumes an index. -/
def faq_lines (idx : Nat) : PolyEntry → List String
  | PolyEntry.dict d =>
    ["\n**Q" ++ toString idx ++ ": " ++ (dget d "question").getD "" ++ "**",
     "A: " ++ (dget d "answer").getD ""]
  | PolyEntry.str _ => []
  | PolyEntry.other => []

/-- FAQ block (src/main.py lines 349-363). -/
def faq_block (h : Hackathon) (ql : String) : List String :=
  if containsAny ql faq_keywords then
    "\n=== FREQUENTLY ASKED QUESTIONS ===" ::
    (if h.faq.isEmpty then ["No FAQs available yet."]
     else (h.faq.enumFrom 1).flatMap (fun p => faq_lines p.1 p.2))
  else []

/-- Rules block (src/main.py lines 365-374). -/
def rules_block (h : Hackathon) (ql : String) : List String :=
  if containsAny ql rules_keywords then
    "\n=== RULES & REGULATIONS ===" ::
    (if truthyS h.rules then [h.rules.getD ""]
     else ["Detailed rules will be published soon."])
  else []

/-- Eligibility block (src/main.py lines 376-395). -/
def eligibility_block (h : Hackathon) (ql : String) : List String :=
  if containsAny ql eligibility_keywords then
    let e := h.eligibility.getD ⟨none, none, none⟩
    "\n=== ELIGIBILITY ===" ::
    (if (e.profile_type.getD "any") ≠ "any" then
       ["Profile Type: " ++ e.profile_type.getD "any"]
     else ["Open to all participants"])
    ++ (if truthyS e.details then ["Details: " ++ e.details.getD ""] else [])
    ++ (if (e.gender.getD "any") ≠ "any" then ["Gender: " ++ e.gender.getD "any"] else [])
  else []

/-- Location block (src/main.py lines 397-410). -/
def location_block (h : Hackathon) (ql : String) : List String :=
  if containsAny ql location_keywords then
    let mode := h.mode.getD "Not specified"
    ["\n=== LOCATION & VENUE ===",
     "Mode: " ++ pyCapitalize mode]
    ++ (if truthyS h.location then ["Location: " ++ h.location.getD ""]
        else if pyLower mode = "online" then
          ["This is an online hackathon - no physical location"]
        else ["Venue details will be announced soon."])
  else []

/-- Announcements block (src/main.py lines 412-421). -/
def announcements_block (h : Hackathon) (ql : String) : List String :=
  if containsAny ql announcement_keywords then
    "\n=== ANNOUNCEMENTS ===" ::
    (if truthyS h.announcements then [h.announcements.getD ""]
     else ["No announcements at this time. Check back later for updates."])
  else []

/-- Statistics block (src/main.py lines 423-431). -/
def stats_block (h : Hackathon) (ql : String) : List String :=
  if containsAny ql stats_keywords then
    ["\n=== PARTICIPATION STATISTICS ===",
     "Total Registered Participants: " ++ toString (h.total_participants.getD 0),
     "Total Page Views: " ++ toString (h.total_views.getD 0)]
  else []

/-- Tags block (src/main.py lines 433-447). -/
def tags_block (h : Hackathon) (ql : String) : List String :=
  if containsAny ql tag_keywords then
    "\n=== HACKATHON CATEGORY ===" ::
    (if truthyS h.type then ["Type: " ++ pyCapitalize (h.type.getD "")] else [])
    ++ (if truthyS h.industry then ["Industry: " ++ pyCapitalize (h.industry.getD "")] else [])
    ++ (if h.tags.isEmpty then [] else ["Tags: " ++ String.intercalate ", " h.tags])
  else []

/-- Winners block (src/main.py lines 449-459). -/
def winners_block (h : Hackathon) (ql : String) : List String :=
  if containsAny ql winner_keywords then
    ["\n=== WINNERS ===",
     if h.is_winners_announced then "Winners have been announced!"
     else "Winners will be announced after the hackathon concludes."]
  else []

/-- Lines of one contact-details entry (src/main.py lines 467-478). -/
def contact_detail_lines : PolyEntry → List String
  | PolyEntry.dict d =>
    let email := (dget d "email").getD ""
    let phone := (dget d "phone").getD ""
    ["\n" ++ bullet ++ " " ++ (dget d "name").getD "Contact"]
    ++ (if email.isEmpty then [] else ["  Email: " ++ email])
    ++ (if phone.isEmpty then [] else ["  Phone: " ++ phone])
  | PolyEntry.str s => [bullet ++ " " ++ s]
  | PolyEntry.other => []

/-- Contact-details block (src/main.py lines 461-478): unlike the other
categories, an empty list renders nothing at all, not even the header. -/
def contact_details_block (h : Hackathon) (ql : String) : List String :=
  if containsAny ql contact_detail_keywords then
    if h.contact_details.isEmpty then []
    else "\n=== CONTACT DETAILS ===" :: h.contact_details.flatMap contact_detail_lines
  else []

/-- Overview block inserted at positions 0-9 of the section list
(src/main.py lines 480-494), consulting the status helper. -/
def overviewLines (parse : String → Option Int) (nowStatus : Int)
    (h : Hackathon) : List String :=
  let st := get_hackathon_status parse nowStatus h.start_datetime h.end_datetime
  ["=== HACKATHON OVERVIEW ===",
   "Name: " ++ pyStr h.name,
   "Status: " ++ status_emoji st ++ " " ++ pyUpper st,
   "Tagline: " ++ pyStr h.tagline,
   "About: " ++ pyStr h.about,
   "Organizer: " ++ pyStr h.organizer_name,
   "Mode: " ++ pyStr h.mode,
   "Duration: " ++ pyStr h.start_datetime ++ " to " ++ pyStr h.end_datetime,
   "Total Participants: " ++ toString (h.total_participants.getD 0),
   ""]

/-- Category sections in source order, before the overview insertion
(src/main.py lines 127-478).  `none` models the exception escaping from the
themes block; blocks after it then never run, and there is no output. -/
def sectionsBody (parse : String → Option Int) (nowReg : Int)
    (h : Hackathon) (ql : String) : Option (List String) :=
  (themes_block h ql).map (fun tb =>
    registration_block parse nowReg h ql ++
    team_block h ql ++
    tb ++
    timeline_block h ql ++
    eval_block h ql ++
    resources_block h ql ++
    prizes_block h ql ++
    events_block h ql ++
    contact_block h ql ++
    mentors_block h ql ++
    judges_block h ql ++
    partners_block h ql ++
    faq_block h ql ++
    rules_block h ql ++
    eligibility_block h ql ++
    location_block h ql ++
    announcements_block h ql ++
    stats_block h ql ++
    tags_block h ql ++
    winners_block h ql ++
    contact_details_block h ql)

/-- Section list of `extract_relevant_sections` (src/main.py lines 86-494):
the question is lower-cased once, the category blocks are appended in source
order, and the overview block is inserted at the front when no category
matched or a general trigger word occurs in the question.  The two clock
reads of the source (inside `is_registration_currently_open` and
`get_hackathon_status`) are the parameters `nowReg` and `nowStatus`. -/
def extract_core (parse : String → Option Int) (nowReg nowStatus : Int)
    (h : Hackathon) (question : String) : Option (List String) :=
  let ql := pyLower question
  (sectionsBody parse nowReg h ql).map (fun body =>
    if (matchedCategories ql).isEmpty || containsAny ql general_keywords then
      overviewLines parse nowStatus h ++ body
    else body)

/-- Full extractor `extract_relevant_sections` (src/main.py line 496):
`"\n".join(sections)`; `none` models the uncaught `KeyError` of the themes
block. -/
def extract_relevant_sections (parse : String → Option Int)
    (nowReg nowStatus : Int) (h : Hackathon) (question : String) : Option String :=
  (extract_core parse nowReg nowStatus h question).map joinLines

/-- Extractor with the ad-hoc clock of the source made explicit: the code
calls `datetime.now(timezone.utc)` separately at each of the two helper call
sites (src/main.py lines 102 and 114), so the output depends on the stream of
clock readings. -/
def extract_clocked (parse : String → Option Int) (clock : Nat → Int)
    (h : Hackathon) (question : String) : Option String :=
  extract_relevant_sections parse (clock 0) (clock 1) h question

/-- Fixed system instruction text (src/main.py lines 45-84, `SYSTEM_PROMPT`). -/
def SYSTEM_PROMPT : String :=
  "You are an official Hackathon Support Assistant.\nYour responsibility is to help participants, mentors, and organizers by answering questions\nSTRICTLY using the provided hackathon data.\n\nRules you MUST follow:\n1. Use ONLY the information given in the context.\n2. Do NOT assume, guess, or add any information outside the provided data.\n3. If specific information is not found but related information exists, provide what IS available and mention what\x27s missing.\n4. Only say \"I\x27m sorry, I couldn\x27t find this information\" if NOTHING relevant to the question is in the context.\n5. Be helpful and provide all relevant information from the context.\n\nCRITICAL FORMATTING RULES - YOU MUST FOLLOW EXACTLY:\nYour response will be displayed in a markdown renderer, so format accordingly:\n\nFor lists of multiple items, use this EXACT format:\n\nThe hackathon has four problem statements:\n\n**1. AI-Powered Smart Assistant** (AI Machine Learning)\n- Build an intelligent assistant for daily tasks\n- Features: NLP, task automation, voice interaction\n\n**2. Digital Payment Solution** (Fintech)\n- Create a secure payment platform  \n- Features: Multi-platform support, real-time tracking\n\n**3. Health Monitoring System** (Healthtech)\n- Develop a health tracking solution\n- Features: Real-time data, AI insights, wearable integration\n\n**4. Green Energy Management** (Sustainability)\n- Build an energy optimization solution\n- Features: Energy tracking, renewable optimization\n\nFor short answers (1-2 items), write naturally without formatting.\nFor 3+ items, ALWAYS use the numbered format above.\nUse proper markdown with ** for bold.\nAdd blank lines between sections for readability.\n\nYour goal is to provide reliable, official answers that render beautifully in markdown."

/-- User-role message content composed by the chat handler (src/main.py
lines 515-520): a literal `Context:` header, the extracted context, a
question header, and the raw question. -/
def user_prompt (context question : String) : String :=
  "Context:\n" ++ context ++ "\n\nUser Question: " ++ question ++
    "\n\nAnswer (use proper markdown formatting):"

/-- One chat message of the completion request: a role and a content text. -/
structure Message where
  role : String
  content : String
deriving DecidableEq

/-- Most recent `n` entries of a list, Python `l[-n:]`. -/
def lastN (n : Nat) (l : List α) : List α := l.drop (l.length - n)

/-- Modelled from the spec: the conversation-history truncation of the
history-carrying chat handler, which is part of this repository but not under
src/ (src/main.py's `chat` is the history-free variant; §3 and §4.3 of the
spec describe the turn sequence as "truncated to the most recent 10 entries
(5 exchanges) before being sent to the Completion Client and before being
returned to the caller"). -/
def truncate_history (history : List Message) : List Message :=
  lastN 10 history

/-- Modelled from the spec: the message sequence composed for the completion
client by the history-carrying handler (§4.3): exactly one leading
system-role message with the fixed instruction text, then up to the last 10
history turns verbatim, then one final user-role message built by
`user_prompt`. -/
def compose_messages (history : List Message) (context question : String) :
    List Message :=
  Message.mk "system" SYSTEM_PROMPT ::
    (truncate_history history ++ [Message.mk "user" (user_prompt context question)])

/-- Modelled from the spec: the history returned to the caller by
`answer_question` (§6), the same truncated sequence that was sent. -/
def updated_history (history : List Message) : List Message :=
  truncate_history history

/-- Stored document of the record store: a finite field-to-value mapping in
insertion order (MongoDB documents have unique keys; where a proof needs
that, it is an explicit `Nodup` hypothesis). -/
abbrev Doc : Type := List (String × String)

/-- Field lookup in a document, the first binding of the key. -/
def doc_get (d : Doc) (k : String) : Option String :=
  match d with
  | [] => none
  | p :: rest => if p.1 == k then some p.2 else doc_get rest k

/-- Overwriting every binding of a key in place. -/
def set_all (k v : String) : Doc → Doc
  | [] => []
  | p :: rest => (if p.1 == k then (k, v) else p) :: set_all k v rest

/-- MongoDB `$set` of a single field: overwrite the key's bindings when the
key is present, append the binding otherwise. -/
def set_field (k v : String) (d : Doc) : Doc :=
  if d.any (fun p => p.1 == k) then set_all k v d else d ++ [(k, v)]

/-- MongoDB `$set` with an update document: each named field overwritten in
order. -/
def apply_set (upd : List (String × String)) (d : Doc) : Doc :=
  upd.foldl (fun acc kv => set_field kv.1 kv.2 acc) d

/-- First stored document whose `_id` field equals the identifier, the
match of `find_one({"_id": hackathon_id})` (src/database.py lines 17, 45). -/
def find_doc (store : List Doc) (id : String) : Option Doc :=
  match store with
  | [] => none
  | d :: rest => if doc_get d "_id" == some id then some d else find_doc rest id

/-- MongoDB `update_one({_id: id}, {$set: upd})`: the first matching document
has the named fields overwritten, and `modified_count` (the second component)
counts it only when its content actually changed. -/
def update_one (store : List Doc) (id : String) (upd : List (String × String)) :
    List Doc × Nat :=
  match store with
  | [] => ([], 0)
  | d :: rest =>
    if doc_get d "_id" == some id then
      ((apply_set upd d) :: rest, if apply_set upd d = d then 0 else 1)
    else
      let r := update_one rest id upd
      (d :: r.1, r.2)

/-- Partial update of the store, from src/database.py lines 41-51
(`update_hackathon`): returns `result.modified_count > 0`. -/
def update_hackathon (store : List Doc) (id : String)
    (upd : List (String × String)) : Bool :=
  (update_one store id upd).2 > 0

/-! ## Theorems -/

/-- C1 as the claim states it: for parsed bounds, `upcoming` iff `now <
start`, `ended` iff `now > end`, `ongoing` otherwise, each as a
biconditional. -/
def C1_statement : Prop :=
  ∀ (parse : String → Option Int) (now : Int) (sd ed : Option String) (s e : Int),
    parseField parse sd = some s →
    parseField parse ed = some e →
    (get_hackathon_status parse now sd ed = "upcoming" ↔ now < s) ∧
    (get_hackathon_status parse now sd ed = "ended" ↔ now > e) ∧
    (get_hackathon_status parse now sd ed = "ongoing" ↔ ¬ now < s ∧ ¬ now > e)

/-- Parser fixture for the C1 counterexample: an ISO-8601 parser defined on
the two normalized timestamps of the record, mapping each to its epoch
second. -/
def isoParseCex : String → Option Int := fun str =>
  if str = "2026-01-02T00:00:00+00:00" then some 1767312000
  else if str = "2026-01-01T00:00:00+00:00" then some 1767225600
  else none

/-- C1 counterexample: on a record whose stored window is inverted
(`end_datetime` before `start_datetime`) and an instant strictly between the
two bounds, the code returns `upcoming` (the `now < start` branch is checked
first), while the claim's biconditional `ended ↔ now > end` demands `ended`;
so the claim as stated is false. -/
theorem C1_counterexample : ¬ C1_statement := by
  intro hcl
  have h := hcl isoParseCex 1767268800
    (some "2026-01-02T00:00:00Z") (some "2026-01-01T00:00:00Z")
    1767312000 1767225600 rfl rfl
  have hend : get_hackathon_status isoParseCex 1767268800
      (some "2026-01-02T00:00:00Z") (some "2026-01-01T00:00:00Z") = "ended" :=
    h.2.1.mpr (by decide)
  exact absurd hend (by decide)

/-- C1 (amended): for parsed bounds the resolver returns `upcoming` exactly
when `now < start`; `ended` exactly when `start ≤ now` and `now > end` (the
upcoming check has priority); `ongoing` exactly when `start ≤ now ≤ end`, so
both boundary instants give `ongoing`; and `unknown` whenever either bound is
absent (the parser, which rejects the empty string, then receives `''`) or
fails to parse after `Z`-normalization. -/
theorem C1_window_status (parse : String → Option Int) (now : Int)
    (sd ed : Option String) :
    (∀ s e, parseField parse sd = some s → parseField parse ed = some e →
      (get_hackathon_status parse now sd ed = "upcoming" ↔ now < s) ∧
      (get_hackathon_status parse now sd ed = "ended" ↔ s ≤ now ∧ e < now) ∧
      (get_hackathon_status parse now sd ed = "ongoing" ↔ s ≤ now ∧ now ≤ e))
    ∧ ((parseField parse sd = none ∨ parseField parse ed = none) →
        get_hackathon_status parse now sd ed = "unknown")
    ∧ (parse "" = none → (sd = none ∨ ed = none) →
        get_hackathon_status parse now sd ed = "unknown") := by
  have hunk : (parseField parse sd = none ∨ parseField parse ed = none) →
      get_hackathon_status parse now sd ed = "unknown" := by
    intro hor
    unfold get_hackathon_status
    rcases hor with h | h
    · rw [h]
    · rw [h]
      rcases parseField parse sd with _ | s <;> rfl
  refine ⟨?_, hunk, ?_⟩
  · intro s e hs he
    have hst : get_hackathon_status parse now sd ed =
        (if now < s then "upcoming" else if now > e then "ended" else "ongoing") := by
      unfold get_hackathon_status
      rw [hs, he]
    rw [hst]
    by_cases h1 : now < s
    · rw [if_pos h1]
      refine ⟨⟨fun _ => h1, fun _ => rfl⟩, ⟨?_, ?_⟩, ⟨?_, ?_⟩⟩
      · intro hc; exact absurd hc (by decide)
      · intro hc; exact absurd h1 (by omega)
      · intro hc; exact absurd hc (by decide)
      · intro hc; exact absurd h1 (by omega)
    · rw [if_neg h1]
      by_cases h2 : now > e
      · rw [if_pos h2]
        refine ⟨⟨?_, ?_⟩, ⟨fun _ => by omega, fun _ => rfl⟩, ⟨?_, ?_⟩⟩
        · intro hc; exact absurd hc (by decide)
        · intro hc; exact absurd hc (by omega)
        · intro hc; exact absurd hc (by decide)
        · intro hc; exact absurd h2 (by omega)
      · rw [if_neg h2]
        refine ⟨⟨?_, ?_⟩, ⟨?_, ?_⟩, ⟨fun _ => by omega, fun _ => rfl⟩⟩
        · intro hc; exact absurd hc (by decide)
        · intro hc; exact absurd hc (by omega)
        · intro hc; exact absurd hc (by decide)
        · intro hc; exact absurd hc (by omega)
  · intro h0 hor
    apply hunk
    rcases hor with h | h
    · subst h
      exact Or.inl h0
    · subst h
      exact Or.inr h0

/-- Parser fixture for the C1 witness: defined on the two normalized
timestamps of a well-ordered window. -/
def isoParseWit : String → Option Int := fun str =>
  if str = "2026-01-10T00:00:00+00:00" then some 100
  else if str = "2026-01-20T00:00:00+00:00" then some 200
  else none

/-- Witness for C1: at the concrete inverted-free window with `now` inside,
the resolver returns `ongoing`, and with an absent start bound it returns
`unknown`. -/
theorem C1_window_status_witness :
    get_hackathon_status isoParseWit 150
      (some "2026-01-10T00:00:00Z") (some "2026-01-20T00:00:00Z") = "ongoing"
    ∧ get_hackathon_status isoParseWit 150 none (some "2026-01-20T00:00:00Z") = "unknown" := by
  constructor
  · exact ((C1_window_status isoParseWit 150 (some "2026-01-10T00:00:00Z")
      (some "2026-01-20T00:00:00Z")).1 100 200 rfl rfl).2.2.mpr (by decide)
  · exact (C1_window_status isoParseWit 150 none
      (some "2026-01-20T00:00:00Z")).2.2 rfl (Or.inl rfl)

/-- C2: for the consulted registration-type phase (the first one) with both
datetimes parsing, openness is `start ≤ now ≤ end` inclusive; with no
registration-type phase, or with either of that phase's datetimes absent
(the parser, which rejects the empty string, then sees `''`) or unparsable,
the result is the stored `is_registration_open` flag, read as `false` when
absent.  The embedding is a total function, so no exception reaches the
caller. -/
theorem C2_registration_open (parse : String → Option Int) (now : Int)
    (h : Hackathon) :
    (∀ p, find_registration_phase h = some p →
      (∀ s e, parseField parse p.start_datetime = some s →
        parseField parse p.end_datetime = some e →
        (is_registration_currently_open parse now h = true ↔ s ≤ now ∧ now ≤ e))
      ∧ ((parseField parse p.start_datetime = none ∨
          parseField parse p.end_datetime = none) →
          is_registration_currently_open parse now h =
            h.is_registration_open.getD false)
      ∧ (parse "" = none → (p.start_datetime = none ∨ p.end_datetime = none) →
          is_registration_currently_open parse now h =
            h.is_registration_open.getD false))
    ∧ (find_registration_phase h = none →
        is_registration_currently_open parse now h =
          h.is_registration_open.getD false) := by
  constructor
  · intro p hp
    have hred : is_registration_currently_open parse now h =
        (match parseField parse p.start_datetime,
               parseField parse p.end_datetime with
         | some s, some e => decide (s ≤ now ∧ now ≤ e)
         | _, _ => h.is_registration_open.getD false) := by
      unfold is_registration_currently_open
      rw [hp]
    have hfb : (parseField parse p.start_datetime = none ∨
        parseField parse p.end_datetime = none) →
        is_registration_currently_open parse now h =
          h.is_registration_open.getD false := by
      intro hor
      rw [hred]
      rcases hor with hn | hn
      · rw [hn]
      · rw [hn]
        rcases parseField parse p.start_datetime with _ | s <;> rfl
    refine ⟨?_, hfb, ?_⟩
    · intro s e hs he
      have hval : is_registration_currently_open parse now h =
          decide (s ≤ now ∧ now ≤ e) := by
        rw [hred, hs, he]
      rw [hval]
      constructor
      · intro hd
        exact of_decide_eq_true hd
      · intro hc
        exact decide_eq_true hc
    · intro h0 hor
      apply hfb
      rcases hor with hn | hn
      · rw [hn]
        exact Or.inl h0
      · rw [hn]
        exact Or.inr h0
  · intro hnone
    unfold is_registration_currently_open
    rw [hnone]

/-- Registration phase fixture for the C2 witness. -/
def regPhaseWit : Phase :=
  ⟨some "Registration", some "registration", some "2026-01-10T00:00:00Z",
   some "2026-01-20T00:00:00Z", none, none, [], false, []⟩

/-- Hackathon fixture for the C2 witness: one registration-type phase with a
parsable window, and no stored flag. -/
def regHackWit : Hackathon :=
  { emptyHackathon with phases := [regPhaseWit] }

/-- Witness for C2: at the fixture record and an instant inside the phase
window, openness is true; on the flagless empty record, openness is the
default `false`. -/
theorem C2_registration_open_witness :
    is_registration_currently_open isoParseWit 150 regHackWit = true
    ∧ is_registration_currently_open isoParseWit 150 emptyHackathon = false := by
  constructor
  · exact (((C2_registration_open isoParseWit 150 regHackWit).1 regPhaseWit rfl).1
      100 200 rfl rfl).mpr (by decide)
  · exact (C2_registration_open isoParseWit 150 emptyHackathon).2 rfl

/-- Tail part contributed by the remaining sections when they are joined
after a nonempty front. -/
def joinTail (ys : List String) : String :=
  match ys with
  | [] => ""
  | y :: t => "\n" ++ joinLines (y :: t)

/-- Folding the line-joining step from any seed appends the joined tail. -/
theorem foldl_joinLines (ys : List String) (z : String) :
    ys.foldl (fun acc y => acc ++ "\n" ++ y) z = z ++ joinTail ys := by
  induction ys generalizing z with
  | nil => exact (String.append_empty z).symm
  | cons y t ih =>
    rw [List.foldl_cons, ih]
    have hj : joinLines (y :: t) = y ++ joinTail t := by
      show t.foldl (fun acc s => acc ++ "\n" ++ s) y = _
      exact ih y
    show z ++ "\n" ++ y ++ joinTail t = z ++ ("\n" ++ joinLines (y :: t))
    rw [hj, String.append_assoc (z ++ "\n"), String.append_assoc z]

/-- Joining a section list that starts with a nonempty front joins the front
first: the joined front is a prefix of the whole joined text. -/
theorem joinLines_cons_append (x : String) (xs ys : List String) :
    joinLines ((x :: xs) ++ ys) = joinLines (x :: xs) ++ joinTail ys := by
  show (xs ++ ys).foldl (fun acc s => acc ++ "\n" ++ s) x = _
  rw [List.foldl_append]
  exact foldl_joinLines ys _

/-- C3: whenever no keyword category matched, or the question contains a
general/overview trigger word, the overview block (name, computed status,
tagline, about, organizer, mode, overall duration, participant count) is
inserted at the front of the section list, before any category blocks that
were also rendered; so the extracted context, as a joined text, begins with
the joined overview block. -/
theorem C3_overview_first (parse : String → Option Int) (nr ns : Int)
    (h : Hackathon) (q : String)
    (hcond : ((matchedCategories (pyLower q)).isEmpty
              || containsAny (pyLower q) general_keywords) = true) :
    extract_core parse nr ns h q =
      (sectionsBody parse nr h (pyLower q)).map
        (fun body => overviewLines parse ns h ++ body)
    ∧ (∀ secs, extract_core parse nr ns h q = some secs →
        ∃ rest, secs = overviewLines parse ns h ++ rest)
    ∧ (∀ out, extract_relevant_sections parse nr ns h q = some out →
        ∃ r, out = joinLines (overviewLines parse ns h) ++ r) := by
  have h1 : extract_core parse nr ns h q =
      (sectionsBody parse nr h (pyLower q)).map
        (fun body => overviewLines parse ns h ++ body) := by
    unfold extract_core
    simp only [hcond, if_true]
  have h2 : ∀ secs, extract_core parse nr ns h q = some secs →
      ∃ rest, secs = overviewLines parse ns h ++ rest := by
    intro secs hs
    rw [h1] at hs
    rcases hb : sectionsBody parse nr h (pyLower q) with _ | body
    · rw [hb] at hs
      cases hs
    · rw [hb] at hs
      refine ⟨body, ?_⟩
      exact (Option.some.injEq _ _ ▸ hs).symm
  refine ⟨h1, h2, ?_⟩
  intro out hout
  unfold extract_relevant_sections at hout
  rcases hc : extract_core parse nr ns h q with _ | secs
  · rw [hc] at hout
    cases hout
  · rw [hc] at hout
    simp only [Option.map_some', Option.some.injEq] at hout
    rcases h2 secs hc with ⟨rest, hrest⟩
    rw [← hout, hrest]
    unfold overviewLines
    rw [joinLines_cons_append]
    exact ⟨_, rfl⟩

/-- Witness for C3: the question `zzz` matches no category and the empty
record renders only the overview block. -/
theorem C3_overview_first_witness :
    (((matchedCategories (pyLower "zzz")).isEmpty
      || containsAny (pyLower "zzz") general_keywords) = true)
    ∧ extract_core (fun _ => none) 0 0 emptyHackathon "zzz" =
        (sectionsBody (fun _ => none) 0 emptyHackathon (pyLower "zzz")).map
          (fun body => overviewLines (fun _ => none) 0 emptyHackathon ++ body) :=
  ⟨rfl, (C3_overview_first (fun _ => none) 0 0 emptyHackathon "zzz" rfl).1⟩

/-- C4 as the claim states it, specialized to the instance it asserts for the
registration category (the claim quantifies over every category, "including
registration"): a registration-keyword question always puts the registration
header into the rendered sections. -/
def C4_statement : Prop :=
  ∀ (parse : String → Option Int) (nr ns : Int) (h : Hackathon) (q : String),
    containsAny (pyLower q) registration_keywords = true →
    ∀ secs, extract_core parse nr ns h q = some secs →
      "=== REGISTRATION INFORMATION ===" ∈ secs

/-- C4 counterexample: for the empty record (which has no registration-type
phase) and the question `register`, the extractor renders no sections at all,
in particular no registration header, although the registration keyword
matched; the block is silently dropped rather than rendered with a none-yet
message. -/
theorem C4_counterexample : ¬ C4_statement := by
  intro hcl
  have hmem := hcl (fun _ => none) 0 0 emptyHackathon "register" rfl [] rfl
  simp at hmem

/-- C4 (amended): the none-yet rendering holds for the mentors category as
the claim describes — an empty mentors list with a mentor-keyword question
renders exactly the MENTORS header plus `No mentors have been assigned yet.`,
and these two lines appear contiguously in any successful extraction — but
not for every category: the registration category renders no block at all
(not even its header) when the record has no registration-type phase. -/
theorem C4_none_yet_blocks (parse : String → Option Int) (nr ns : Int)
    (h : Hackathon) (q : String) :
    (h.mentors = [] → containsAny (pyLower q) mentor_keywords = true →
      mentors_block h (pyLower q) =
        ["\n=== MENTORS ===", "No mentors have been assigned yet."]
      ∧ ∀ secs, extract_core parse nr ns h q = some secs →
          ∃ pre post, secs =
            pre ++ ["\n=== MENTORS ===", "No mentors have been assigned yet."] ++ post)
    ∧ (find_registration_phase h = none →
        registration_block parse nr h (pyLower q) = [])
    ∧ (h.contact_details = [] → contact_details_block h (pyLower q) = [])
    ∧ (h.phases = [] → containsAny (pyLower q) eval_keywords = true →
        eval_block h (pyLower q) = ["\n=== EVALUATION CRITERIA ==="])
    ∧ (h.tags = [] → h.type = none → h.industry = none →
        containsAny (pyLower q) tag_keywords = true →
        tags_block h (pyLower q) = ["\n=== HACKATHON CATEGORY ==="]) := by
  refine ⟨?_, ?_, ?_, ?_, ?_⟩
  · intro hm hkw
    have hmb : mentors_block h (pyLower q) =
        ["\n=== MENTORS ===", "No mentors have been assigned yet."] := by
      unfold mentors_block
      rw [hkw, hm]
      rfl
    refine ⟨hmb, ?_⟩
    intro secs hs
    simp only [extract_core, sectionsBody] at hs
    rcases htb : themes_block h (pyLower q) with _ | tb
    · rw [htb] at hs
      cases hs
    · rw [htb] at hs
      simp only [Option.map_some', Option.some.injEq] at hs
      rw [hmb] at hs
      by_cases hcond : ((matchedCategories (pyLower q)).isEmpty
          || containsAny (pyLower q) general_keywords) = true
      · rw [if_pos hcond] at hs
        refine ⟨overviewLines parse ns h ++
          (registration_block parse nr h (pyLower q) ++ team_block h (pyLower q) ++
           tb ++ timeline_block h (pyLower q) ++ eval_block h (pyLower q) ++
           resources_block h (pyLower q) ++ prizes_block h (pyLower q) ++
           events_block h (pyLower q) ++ contact_block h (pyLower q)),
          judges_block h (pyLower q) ++ partners_block h (pyLower q) ++
           faq_block h (pyLower q) ++ rules_block h (pyLower q) ++
           eligibility_block h (pyLower q) ++ location_block h (pyLower q) ++
           announcements_block h (pyLower q) ++ stats_block h (pyLower q) ++
           tags_block h (pyLower q) ++ winners_block h (pyLower q) ++
           contact_details_block h (pyLower q), ?_⟩
        rw [← hs]
        simp [List.append_assoc]
      · rw [if_neg hcond] at hs
        refine ⟨registration_block parse nr h (pyLower q) ++ team_block h (pyLower q) ++
           tb ++ timeline_block h (pyLower q) ++ eval_block h (pyLower q) ++
           resources_block h (pyLower q) ++ prizes_block h (pyLower q) ++
           events_block h (pyLower q) ++ contact_block h (pyLower q),
          judges_block h (pyLower q) ++ partners_block h (pyLower q) ++
           faq_block h (pyLower q) ++ rules_block h (pyLower q) ++
           eligibility_block h (pyLower q) ++ location_block h (pyLower q) ++
           announcements_block h (pyLower q) ++ stats_block h (pyLower q) ++
           tags_block h (pyLower q) ++ winners_block h (pyLower q) ++
           contact_details_block h (pyLower q), ?_⟩
        rw [← hs]
        simp [List.append_assoc]
  · intro hnone
    unfold registration_block
    rw [hnone]
    split <;> rfl
  · intro hcd
    unfold contact_details_block
    rw [hcd]
    split <;> rfl
  · intro hp hk
    unfold eval_block
    rw [hk, hp]
    rfl
  · intro ht hty hin hk
    unfold tags_block
    rw [hk, ht, hty, hin]
    rfl

/-- Witness for C4: the empty record with question `mentor` renders exactly
the mentors header plus the none-yet line, its registration block is empty,
and likewise for the concrete contact-details, evaluation and tags cases. -/
theorem C4_none_yet_blocks_witness :
    mentors_block emptyHackathon (pyLower "mentor") =
      ["\n=== MENTORS ===", "No mentors have been assigned yet."]
    ∧ registration_block (fun _ => none) 0 emptyHackathon (pyLower "mentor") = []
    ∧ contact_details_block emptyHackathon (pyLower "phone") = []
    ∧ eval_block emptyHackathon (pyLower "score") = ["\n=== EVALUATION CRITERIA ==="]
    ∧ tags_block emptyHackathon (pyLower "tags") = ["\n=== HACKATHON CATEGORY ==="] :=
  ⟨((C4_none_yet_blocks (fun _ => none) 0 0 emptyHackathon "mentor").1 rfl rfl).1,
   (C4_none_yet_blocks (fun _ => none) 0 0 emptyHackathon "mentor").2.1 rfl,
   (C4_none_yet_blocks (fun _ => none) 0 0 emptyHackathon "phone").2.2.1 rfl,
   (C4_none_yet_blocks (fun _ => none) 0 0 emptyHackathon "score").2.2.2.1 rfl rfl,
   (C4_none_yet_blocks (fun _ => none) 0 0 emptyHackathon "tags").2.2.2.2 rfl rfl rfl rfl⟩

/-- C5: the extractor is a pure function of the record, the question and the
clock readings it takes (the source samples the clock ad hoc at two call
sites, modelled by the reading stream `clock`): any two runs whose clocks
both read the same injected instant `now` produce byte-identical output, and
that output is exactly the single-instant extraction at `now`; no other
input, I/O or global state is consulted. -/
theorem C5_deterministic (parse : String → Option Int) (h : Hackathon)
    (q : String) (now : Int) (clock1 clock2 : Nat → Int)
    (h1 : ∀ i, clock1 i = now) (h2 : ∀ i, clock2 i = now) :
    extract_clocked parse clock1 h q = extract_clocked parse clock2 h q
    ∧ extract_clocked parse clock1 h q =
        extract_relevant_sections parse now now h q := by
  unfold extract_clocked
  rw [h1 0, h1 1, h2 0, h2 1]
  exact ⟨rfl, rfl⟩

/-- Witness for C5: two syntactically different clocks frozen at instant 5
give byte-identical output on a concrete record and question. -/
theorem C5_deterministic_witness :
    extract_clocked (fun _ => none) (fun _ => 5) emptyHackathon "status" =
      extract_clocked (fun _ => none) (fun _ => 4 + 1) emptyHackathon "status"
    ∧ extract_clocked (fun _ => none) (fun _ => 5) emptyHackathon "status" =
        extract_relevant_sections (fun _ => none) 5 5 emptyHackathon "status" :=
  C5_deterministic (fun _ => none) emptyHackathon "status" 5
    (fun _ => 5) (fun _ => 4 + 1) (fun _ => rfl) (fun _ => rfl)

/-- Record exhibiting the C6 code bug: one theme entry that lacks `name`. -/
def themeNoNameHackathon : Hackathon :=
  { emptyHackathon with themes := [⟨none, none, []⟩] }

/-- Record identical to the C6 failing input except that the theme entry has
a `name`. -/
def themeNamedHackathon : Hackathon :=
  { emptyHackathon with themes := [⟨some "AI", none, []⟩] }

/-- C6 (code bug): the claim says a missing optional field is never an error,
and src/main.py treats almost every field that way (`.get` with defaults),
but `theme['name']` (line 173) and `ps['name']` (line 181) are direct
indexings: on a record whose theme entry lacks `name`, a theme-keyword
question makes the extraction raise `KeyError` (modelled as `none`) instead
of returning normally; the same record with the name present extracts
normally, isolating the missing field as the cause. -/
theorem C6_theme_keyerror :
    extract_relevant_sections (fun _ => none) 0 0 themeNoNameHackathon "theme" =
      none
    ∧ extract_relevant_sections (fun _ => none) 0 0 themeNamedHackathon "theme" =
      some ("\n=== THEMES AND PROBLEM STATEMENTS ===\nTotal number of themes: 1" ++
        "\n\n1. AI\n   Description: No description available") :=
  ⟨rfl, rfl⟩

/-- C7: the composed message sequence carries at most the most recent 10
history turns; with 12 prior turns it carries exactly the most recent 10
(`history.drop 2`), preserved verbatim between the single leading system-role
message and the final user-role message, and the same truncated history is
returned to the caller. -/
theorem C7_history_truncation (history : List Message) (context question : String)
    (hlen : history.length = 12) :
    compose_messages history context question =
      Message.mk "system" SYSTEM_PROMPT ::
        (history.drop 2 ++ [Message.mk "user" (user_prompt context question)])
    ∧ (history.drop 2).length = 10
    ∧ updated_history history = history.drop 2
    ∧ ∀ hist : List Message, (truncate_history hist).length ≤ 10 := by
  have htr : truncate_history history = history.drop 2 := by
    unfold truncate_history lastN
    rw [hlen]
  refine ⟨?_, ?_, ?_, ?_⟩
  · unfold compose_messages
    rw [htr]
  · rw [List.length_drop, hlen]
  · unfold updated_history
    exact htr
  · intro hist
    unfold truncate_history lastN
    rw [List.length_drop]
    omega

/-- Twelve-turn history fixture for the C7 witness. -/
def historyWit : List Message :=
  (List.range 12).map (fun i => Message.mk "user" (toString i))

/-- Witness for C7: on a concrete 12-turn history, the composed sequence is
the system message, then turns 2..11, then the user message; exactly 10
turns survive. -/
theorem C7_history_truncation_witness :
    compose_messages historyWit "ctx" "q" =
      Message.mk "system" SYSTEM_PROMPT ::
        (historyWit.drop 2 ++ [Message.mk "user" (user_prompt "ctx" "q")])
    ∧ (historyWit.drop 2).length = 10 :=
  ⟨(C7_history_truncation historyWit "ctx" "q" rfl).1,
   (C7_history_truncation historyWit "ctx" "q" rfl).2.1⟩

/-- Floor of a rational that is an integer cast is that integer. -/
theorem ratFloor_intCast (n : ℤ) : ratFloor (n : ℚ) = n := by
  unfold ratFloor
  simp [Rat.num_intCast, Rat.den_intCast, Int.fdiv_one]

/-- Half-even rounding of an integer cast is that integer. -/
theorem roundHalfEven_intCast (n : ℤ) : roundHalfEven (n : ℚ) = n := by
  unfold roundHalfEven
  rw [ratFloor_intCast]
  norm_num

/-- C8: the example group `innovation 30 / execution 20` renders total 50
with innovation at 60 percent and execution at 40 percent; in general, a
positive group total makes each criterion's percentage `points / total * 100`
(then rounded for display), and a zero-or-negative total reports 0 instead of
a division fault. -/
theorem C8_evaluation_percentages :
    metric_group_lines ⟨[("innovation", 30), ("execution", 20)]⟩ =
      ["\nTotal Points: 50",
       "  " ++ bullet ++ " innovation: 30 points (60%)",
       "  " ++ bullet ++ " execution: 20 points (40%)"]
    ∧ (∀ points total : Int, 0 < total →
        percentage points total = (points : ℚ) / (total : ℚ) * 100)
    ∧ (∀ points total : Int, total ≤ 0 →
        percentage points total = 0 ∧ pct_rendered points total = 0) := by
  have h60 : pct_rendered 30 50 = 60 := by
    unfold pct_rendered percentage
    rw [if_pos (by norm_num : (50 : ℤ) > 0)]
    have h : ((30 : ℤ) : ℚ) / ((50 : ℤ) : ℚ) * 100 = ((60 : ℤ) : ℚ) := by norm_num
    rw [h, roundHalfEven_intCast]
  have h40 : pct_rendered 20 50 = 40 := by
    unfold pct_rendered percentage
    rw [if_pos (by norm_num : (50 : ℤ) > 0)]
    have h : ((20 : ℤ) : ℚ) / ((50 : ℤ) : ℚ) * 100 = ((40 : ℤ) : ℚ) := by norm_num
    rw [h, roundHalfEven_intCast]
  refine ⟨?_, ?_, ?_⟩
  · have hred : metric_group_lines ⟨[("innovation", 30), ("execution", 20)]⟩ =
        ["\nTotal Points: " ++ toString (50 : ℤ),
         "  " ++ bullet ++ " innovation: " ++ toString (30 : ℤ) ++ " points (" ++
           toString (pct_rendered 30 50) ++ "%)",
         "  " ++ bullet ++ " execution: " ++ toString (20 : ℤ) ++ " points (" ++
           toString (pct_rendered 20 50) ++ "%)"] := rfl
    rw [hred, h60, h40]
    rfl
  · intro points total ht
    unfold percentage
    rw [if_pos ht]
  · intro points total ht
    constructor
    · unfold percentage
      rw [if_neg (by omega)]
    · unfold pct_rendered percentage
      rw [if_neg (by omega)]
      rw [show (0 : ℚ) = ((0 : ℤ) : ℚ) by norm_num, roundHalfEven_intCast]

/-- Witness for C8: concrete instances of the positive-total formula and of
the non-positive-total fallback. -/
theorem C8_evaluation_percentages_witness :
    percentage 30 50 = ((30 : ℤ) : ℚ) / ((50 : ℤ) : ℚ) * 100
    ∧ percentage 7 0 = 0 ∧ pct_rendered 7 0 = 0 :=
  ⟨C8_evaluation_percentages.2.1 30 50 (by norm_num),
   (C8_evaluation_percentages.2.2 7 0 (le_refl 0)).1,
   (C8_evaluation_percentages.2.2 7 0 (le_refl 0)).2⟩

/-- All 21 category keyword lists of the extractor, tagged with their
category names, in source order. -/
def category_keyword_lists : List (String × List String) :=
  [("registration", registration_keywords),
   ("team", team_keywords),
   ("themes", theme_keywords),
   ("timeline", timeline_keywords),
   ("evaluation", eval_keywords),
   ("resources", resource_keywords),
   ("prizes", prize_keywords),
   ("events", event_keywords),
   ("contact", contact_keywords),
   ("mentors", mentor_keywords),
   ("judges", judge_keywords),
   ("partners", partner_keywords),
   ("faq", faq_keywords),
   ("rules", rules_keywords),
   ("eligibility", eligibility_keywords),
   ("location", location_keywords),
   ("announcements", announcement_keywords),
   ("stats", stats_keywords),
   ("tags", tag_keywords),
   ("winners", winner_keywords),
   ("contact_details", contact_detail_keywords)]

/-- C9 as the claim states it: no keyword string belongs to the keyword
lists of two different categories. -/
def C9_statement : Prop :=
  category_keyword_lists.Pairwise (fun a b => ∀ k ∈ a.2, k ∉ b.2)

/-- C9 counterexample: the keyword `link` is in both the resources list and
the contact list, so the per-category keyword lists are not pairwise
disjoint. -/
theorem C9_counterexample : ¬ C9_statement := by
  unfold C9_statement
  decide

/-- The five keyword overlaps that actually exist between category lists. -/
def keyword_overlaps : List (String × String × String) :=
  [("team", "partners", "partner"),
   ("themes", "tags", "category"),
   ("resources", "contact", "link"),
   ("resources", "mentors", "guide"),
   ("contact", "contact_details", "email")]

/-- C9 (amended): the category keyword lists are pairwise disjoint except
for exactly five shared keywords: `partner` (team and partners), `category`
(themes and tags), `link` (resources and contact), `guide` (resources and
mentors) and `email` (contact and contact-details); each of those five
overlaps does occur. -/
theorem C9_keyword_overlaps :
    category_keyword_lists.Pairwise
      (fun a b => ∀ k ∈ a.2, k ∈ b.2 → (a.1, b.1, k) ∈ keyword_overlaps)
    ∧ ∀ x ∈ keyword_overlaps,
        ∃ l1 ∈ category_keyword_lists, ∃ l2 ∈ category_keyword_lists,
          l1.1 = x.1 ∧ l2.1 = x.2.1 ∧ x.2.2 ∈ l1.2 ∧ x.2.2 ∈ l2.2 := by
  constructor
  · decide
  · decide

/-- Witness for C9: the `link` overlap between resources and contact is
realized by concrete entries of the category list. -/
theorem C9_keyword_overlaps_witness :
    ∃ l1 ∈ category_keyword_lists, ∃ l2 ∈ category_keyword_lists,
      l1.1 = "resources" ∧ l2.1 = "contact" ∧ "link" ∈ l1.2 ∧ "link" ∈ l2.2 :=
  C9_keyword_overlaps.2 ("resources", "contact", "link") (by decide)

/-- A successful field lookup means some binding of the key exists. -/
theorem doc_any_of_get {d : Doc} {k v : String} (h : doc_get d k = some v) :
    d.any (fun p => p.1 == k) = true := by
  induction d with
  | nil => cases h
  | cons p rest ih =>
    unfold doc_get at h
    cases hpk : (p.1 == k) with
    | true => simp [List.any_cons, hpk]
    | false =>
      rw [hpk] at h
      simp only [List.any_cons, hpk, Bool.false_or]
      exact ih h

/-- A failing key test on every binding means the lookup fails. -/
theorem doc_get_none_of_any_false {d : Doc} {k : String}
    (h : d.any (fun p => p.1 == k) = false) : doc_get d k = none := by
  induction d with
  | nil => rfl
  | cons p rest ih =>
    simp only [List.any_cons, Bool.or_eq_false_iff] at h
    unfold doc_get
    rw [h.1]
    exact ih h.2



/-- Overwriting the bindings of one key leaves lookups of every other key
unchanged. -/
theorem doc_get_set_all_ne {k q : String} (hne : q ≠ k) (v : String)
    (d : Doc) : doc_get (set_all k v d) q = doc_get d q := by
  have hkq : (k == q) = false := beq_eq_false_iff_ne.mpr (fun hc => hne hc.symm)
  induction d with
  | nil => rfl
  | cons p rest ih =>
    unfold set_all doc_get
    by_cases hpk : (p.1 == k) = true
    · have hpq : (p.1 == q) = false := by
        rw [beq_iff_eq.mp hpk]
        exact hkq
      rw [if_pos hpk]
      rw [show ((k, v).1 == q) = false from hkq, hpq]
      exact ih
    · rw [if_neg hpk]
      by_cases hpq : (p.1 == q) = true
      · rw [if_pos hpq, if_pos hpq]
      · rw [if_neg hpq, if_neg hpq]
        exact ih

/-- Appending a binding of key `k` leaves lookups of other keys unchanged. -/
theorem doc_get_append_single_ne {k q : String} (hne : q ≠ k) (v : String)
    (d : Doc) : doc_get (d ++ [(k, v)]) q = doc_get d q := by
  have hkq : (k == q) = false := beq_eq_false_iff_ne.mpr (fun hc => hne hc.symm)
  induction d with
  | nil =>
    simp [doc_get, hkq]
  | cons p rest ih =>
    rw [List.cons_append]
    unfold doc_get
    by_cases hpq : (p.1 == q) = true
    · rw [if_pos hpq, if_pos hpq]
    · rw [if_neg hpq, if_neg hpq]
      exact ih

/-- Setting one field leaves lookups of every other field unchanged. -/
theorem doc_get_set_field_ne {k q : String} (hne : q ≠ k) (v : String)
    (d : Doc) : doc_get (set_field k v d) q = doc_get d q := by
  unfold set_field
  by_cases hany : d.any (fun p => p.1 == k) = true
  · rw [if_pos hany]
    exact doc_get_set_all_ne hne v d
  · rw [if_neg hany]
    exact doc_get_append_single_ne hne v d

/-- Overwriting the bindings of a key that occurs makes its lookup the new
value. -/
theorem doc_get_set_all_self {k v : String} {d : Doc}
    (hany : d.any (fun p => p.1 == k) = true) :
    doc_get (set_all k v d) k = some v := by
  induction d with
  | nil => cases hany
  | cons p rest ih =>
    unfold set_all doc_get
    by_cases hpk : (p.1 == k) = true
    · rw [if_pos hpk, show ((k, v).1 == k) = true from beq_iff_eq.mpr rfl]
      rfl
    · have hpk' : (p.1 == k) = false := by
        cases hb : (p.1 == k) with
        | true => exact absurd hb hpk
        | false => rfl
      rw [if_neg hpk]
      rw [if_neg hpk]
      simp only [List.any_cons, hpk', Bool.false_or] at hany
      exact ih hany

/-- Appending a binding of an absent key makes its lookup the new value. -/
theorem doc_get_append_single_self (k v : String) {d : Doc}
    (hnone : doc_get d k = none) :
    doc_get (d ++ [(k, v)]) k = some v := by
  induction d with
  | nil =>
    simp [doc_get]
  | cons p rest ih =>
    rw [List.cons_append]
    unfold doc_get
    unfold doc_get at hnone
    by_cases hpk : (p.1 == k) = true
    · rw [if_pos hpk] at hnone
      cases hnone
    · rw [if_neg hpk]
      rw [if_neg hpk] at hnone
      exact ih hnone

/-- After setting a field, looking that field up yields the new value. -/
theorem doc_get_set_field_self (k v : String) (d : Doc) :
    doc_get (set_field k v d) k = some v := by
  unfold set_field
  by_cases hany : d.any (fun p => p.1 == k) = true
  · rw [if_pos hany]
    exact doc_get_set_all_self hany
  · rw [if_neg hany]
    apply doc_get_append_single_self
    apply doc_get_none_of_any_false
    cases hb : d.any (fun p => p.1 == k) with
    | true => exact absurd hb hany
    | false => rfl

/-- Overwriting a key that does not occur in the document is the identity. -/
theorem set_all_of_key_not_mem {k : String} (v : String) {d : Doc}
    (h : k ∉ d.map Prod.fst) : set_all k v d = d := by
  induction d with
  | nil => rfl
  | cons p rest ih =>
    simp only [List.map_cons, List.mem_cons, not_or] at h
    unfold set_all
    have hpk : ¬ (p.1 == k) = true := by
      simp only [beq_iff_eq]
      exact fun hc => h.1 hc.symm
    rw [if_neg hpk, ih h.2]

/-- With unique keys, overwriting a key with the value it already holds is
the identity. -/
theorem set_all_self_of_get {k v : String} {d : Doc}
    (hnd : (d.map Prod.fst).Nodup) (hget : doc_get d k = some v) :
    set_all k v d = d := by
  induction d with
  | nil => cases hget
  | cons p rest ih =>
    unfold doc_get at hget
    unfold set_all
    rw [List.map_cons, List.nodup_cons] at hnd
    by_cases hpk : (p.1 == k) = true
    · rw [if_pos hpk] at hget ⊢
      have hp1 : p.1 = k := beq_iff_eq.mp hpk
      have hp2 : p.2 = v := by
        injection hget
      have hrest : set_all k v rest = rest := by
        apply set_all_of_key_not_mem
        rw [← hp1]
        exact hnd.1
      rw [hrest, ← hp1, ← hp2]
    · rw [if_neg hpk] at hget ⊢
      exact congrArg (p :: ·) (ih hnd.2 hget)

/-- With unique keys, setting a field to the value it already holds is the
identity on the document. -/
theorem set_field_self_of_get {k v : String} {d : Doc}
    (hnd : (d.map Prod.fst).Nodup) (hget : doc_get d k = some v) :
    set_field k v d = d := by
  unfold set_field
  rw [if_pos (doc_any_of_get hget)]
  exact set_all_self_of_get hnd hget

/-- With unique keys and every named field already holding its new value,
the whole `$set` is the identity on the document. -/
theorem apply_set_self_of_get {upd : List (String × String)} {d : Doc}
    (hnd : (d.map Prod.fst).Nodup)
    (h : ∀ kv ∈ upd, doc_get d kv.1 = some kv.2) :
    apply_set upd d = d := by
  induction upd with
  | nil => rfl
  | cons u rest ih =>
    unfold apply_set
    rw [List.foldl_cons]
    rw [set_field_self_of_get hnd (h u (List.mem_cons_self u rest))]
    exact ih (fun kv hkv => h kv (List.mem_cons_of_mem u hkv))

/-- Fields not named by the update keep their values through `$set`. -/
theorem doc_get_apply_set_not_mem {upd : List (String × String)} {k : String}
    (h : k ∉ upd.map Prod.fst) (d : Doc) :
    doc_get (apply_set upd d) k = doc_get d k := by
  induction upd generalizing d with
  | nil => rfl
  | cons u rest ih =>
    simp only [List.map_cons, List.mem_cons, not_or] at h
    unfold apply_set
    rw [List.foldl_cons]
    have := ih h.2 (set_field u.1 u.2 d)
    unfold apply_set at this
    rw [this]
    exact doc_get_set_field_ne (fun hc => h.1 hc) u.2 d

/-- Every field named by a duplicate-free update holds its new value after
`$set`. -/
theorem doc_get_apply_set_mem {upd : List (String × String)}
    (hnd : (upd.map Prod.fst).Nodup) {kv : String × String} (hkv : kv ∈ upd)
    (d : Doc) : doc_get (apply_set upd d) kv.1 = some kv.2 := by
  induction upd generalizing d with
  | nil => cases hkv
  | cons u rest ih =>
    rw [List.map_cons, List.nodup_cons] at hnd
    unfold apply_set
    rw [List.foldl_cons]
    rcases List.mem_cons.mp hkv with heq | hmem
    · subst heq
      have hnot : kv.1 ∉ rest.map Prod.fst := hnd.1
      have h1 : doc_get (apply_set rest (set_field kv.1 kv.2 d)) kv.1 =
          doc_get (set_field kv.1 kv.2 d) kv.1 :=
        doc_get_apply_set_not_mem hnot (set_field kv.1 kv.2 d)
      unfold apply_set at h1
      rw [h1]
      exact doc_get_set_field_self kv.1 kv.2 d
    · have := ih hnd.2 hmem (set_field u.1 u.2 d)
      unfold apply_set at this
      rw [this]

/-- When no stored document matches the identifier, `modified_count` is 0. -/
theorem update_one_not_found {store : List Doc} {id : String}
    (h : find_doc store id = none) (upd : List (String × String)) :
    (update_one store id upd).2 = 0 := by
  induction store with
  | nil => rfl
  | cons d rest ih =>
    unfold find_doc at h
    unfold update_one
    by_cases hc : (doc_get d "_id" == some id) = true
    · rw [if_pos hc] at h
      cases h
    · rw [if_neg hc] at h ⊢
      exact ih h

/-- When the first matching document is `d`, `modified_count` is 1 exactly
when the `$set` changed `d`. -/
theorem update_one_found {store : List Doc} {id : String} {d : Doc}
    (h : find_doc store id = some d) (upd : List (String × String)) :
    (update_one store id upd).2 = (if apply_set upd d = d then 0 else 1) := by
  induction store with
  | nil => cases h
  | cons d0 rest ih =>
    unfold find_doc at h
    unfold update_one
    by_cases hc : (doc_get d0 "_id" == some id) = true
    · rw [if_pos hc] at h ⊢
      injection h with h
      subst h
      rfl
    · rw [if_neg hc] at h ⊢
      exact ih h

/-- C10: `update_hackathon` returns true only when a stored field value
actually changed.  An identifier matching no document gives false; an
existing document updated with a partial whose every named field already
holds the given value (keys unique, as in MongoDB) also gives false, so
false does not distinguish absence from a no-op; and a true result means
exactly that the `$set` changed the matched document, which overwrites the
named fields and only those. -/
theorem C10_update_semantics (store : List Doc) (id : String)
    (upd : List (String × String)) :
    (find_doc store id = none → update_hackathon store id upd = false)
    ∧ (∀ d, find_doc store id = some d → (d.map Prod.fst).Nodup →
        (∀ kv ∈ upd, doc_get d kv.1 = some kv.2) →
        update_hackathon store id upd = false)
    ∧ (∀ d, find_doc store id = some d →
        (update_hackathon store id upd = true ↔ apply_set upd d ≠ d))
    ∧ (∀ d : Doc, ∀ k, k ∉ upd.map Prod.fst →
        doc_get (apply_set upd d) k = doc_get d k)
    ∧ ((upd.map Prod.fst).Nodup → ∀ kv ∈ upd, ∀ d : Doc,
        doc_get (apply_set upd d) kv.1 = some kv.2) := by
  refine ⟨?_, ?_, ?_, ?_, ?_⟩
  · intro h
    unfold update_hackathon
    rw [update_one_not_found h upd]
    rfl
  · intro d hfind hnd hvals
    unfold update_hackathon
    rw [update_one_found hfind upd, if_pos (apply_set_self_of_get hnd hvals)]
    rfl
  · intro d hfind
    unfold update_hackathon
    rw [update_one_found hfind upd]
    by_cases hchg : apply_set upd d = d
    · rw [if_pos hchg]
      constructor
      · intro hc
        cases hc
      · intro hc
        exact absurd hchg hc
    · rw [if_neg hchg]
      constructor
      · intro _
        exact hchg
      · intro _
        rfl
  · intro d k hk
    exact doc_get_apply_set_not_mem hk d
  · intro hnd kv hkv d
    exact doc_get_apply_set_mem hnd hkv d

/-- Store fixture for the C10 witness: one document. -/
def storeWit : List Doc := [[("_id", "h1"), ("name", "AI Hack")]]

/-- Witness for C10: an unknown identifier gives false; a no-op update of
the stored name gives false; a real update gives true and the field reads
back changed while `_id` is untouched. -/
theorem C10_update_semantics_witness :
    update_hackathon storeWit "missing" [("name", "X")] = false
    ∧ update_hackathon storeWit "h1" [("name", "AI Hack")] = false
    ∧ update_hackathon storeWit "h1" [("name", "X")] = true
    ∧ doc_get (apply_set [("name", "X")] [("_id", "h1"), ("name", "AI Hack")]) "_id"
        = some "h1"
    ∧ doc_get (apply_set [("name", "X")] [("_id", "h1"), ("name", "AI Hack")]) "name"
        = some "X" := by
  refine ⟨?_, ?_, ?_, ?_, ?_⟩
  · exact (C10_update_semantics storeWit "missing" [("name", "X")]).1 rfl
  · exact (C10_update_semantics storeWit "h1" [("name", "AI Hack")]).2.1
      [("_id", "h1"), ("name", "AI Hack")] rfl (by decide) (by decide)
  · exact ((C10_update_semantics storeWit "h1" [("name", "X")]).2.2.1
      [("_id", "h1"), ("name", "AI Hack")] rfl).mpr (by decide)
  · exact (C10_update_semantics storeWit "h1" [("name", "X")]).2.2.2.1
      [("_id", "h1"), ("name", "AI Hack")] "_id" (by decide)
  · exact (C10_update_semantics storeWit "h1" [("name", "X")]).2.2.2.2
      (by decide) ("name", "X") (by decide) [("_id", "h1"), ("name", "AI Hack")]
